import Mathlib

/-!
Verification development for the solid-state-battery audit repository.

The Python sources are shallowly embedded: every `float` computation is
modelled over `ℝ` (with `Real.sqrt`, `Real.exp`, `Real.pi` and real
exponentiation standing for the corresponding numpy operations), Python
ints are modelled by `ℤ`/`ℕ`, `float('inf')` return values by `⊤ : EReal`,
and a data-loading failure (an exception raised while reading the input
files) by a `none` input to the routine that catches it.  The per-cycle
uniform random draws of the cycle-life simulator are modelled by an
arbitrary real-valued stream `u : ℕ → ℝ`.
-/

set_option maxHeartbeats 1000000

noncomputable section

open Classical

/-! ## Embedding of `physics_cycle_life.py` -/

namespace CycleLife

/-- Physical constant from the source: Boltzmann constant in eV/K. -/
def K_B_EV : ℝ := 8.617e-5

/-- Physical constant from the source: Boltzmann constant in J/K. -/
def K_B_J : ℝ := 1.381e-23

/-- Physical constant from the source: Faraday constant in C/mol. -/
def FARADAY : ℝ := 96485.0

/-- Physical constant from the source: gas constant in J/(mol K). -/
def R_GAS : ℝ := 8.314

/-- Record of physical properties of a battery architecture
(`@dataclass Architecture` in `physics_cycle_life.py`). -/
structure Architecture where
  name : String
  K_constraint_GPa : ℝ
  E_separator_GPa : ℝ
  porosity : ℝ
  contact_area_fraction : ℝ
  stress_concentration_factor : ℝ
  strut_thickness_um : ℝ
  unit_cell_um : ℝ

/-- `Architecture.cycling_stress_amplitude_MPa`: the lithium yield stress
(2.0 MPa) times the stress concentration factor. -/
def Architecture.cycling_stress_amplitude_MPa (a : Architecture) : ℝ :=
  2.0 * a.stress_concentration_factor

/-- `Architecture.dendrite_barrier_MPa`: strain energy barrier
`0.5 * K_constraint_GPa * 1000 * 0.05 ** 2`. -/
def Architecture.dendrite_barrier_MPa (a : Architecture) : ℝ :=
  0.5 * a.K_constraint_GPa * 1000 * 0.05 ^ 2

/-- The `GENESIS` architecture constant of the source. -/
def GENESIS : Architecture :=
  { name := "Genesis (Gyroid Lattice)"
    K_constraint_GPa := 6.7
    E_separator_GPa := 22.5
    porosity := 0.40
    contact_area_fraction := 0.60
    stress_concentration_factor := 2.0
    strut_thickness_um := 2.5
    unit_cell_um := 10.0 }

/-- The `BASELINE` architecture constant of the source. -/
def BASELINE : Architecture :=
  { name := "Baseline (Dense LLZO + Clamps)"
    K_constraint_GPa := 0.0
    E_separator_GPa := 150.0
    porosity := 0.0
    contact_area_fraction := 0.95
    stress_concentration_factor := 7.0
    strut_thickness_um := 0.0
    unit_cell_um := 0.0 }

/-- `sei_growth_per_cycle`: SEI thickness (nm) after cycle `cycle_num`,
parabolic kinetics `L = sqrt(2 D t) * 1e9` with Arrhenius and stress
acceleration factors, exactly as in the source. -/
def sei_growth_per_cycle (architecture : Architecture) (cycle_num : ℕ)
    (T_celsius C_rate : ℝ) : ℝ :=
  let T := T_celsius + 273.15
  let t_cycle_s := 3600 / C_rate * 2
  let D_SEI_base := 8e-22
  let E_a_SEI := 0.35
  let T_ref := 298.15
  let arrhenius := Real.exp (-E_a_SEI / K_B_EV * (1 / T - 1 / T_ref))
  let sigma := architecture.cycling_stress_amplitude_MPa
  let sigma_ref := 5.0
  let stress_factor := 1.0 + (sigma / sigma_ref) ^ (1.5 : ℝ)
  let D_SEI := D_SEI_base * arrhenius * stress_factor
  let total_time := t_cycle_s * ((cycle_num : ℝ) + 1)
  let L_m := Real.sqrt (2 * D_SEI * total_time)
  L_m * 1e9

/-- `fatigue_damage_per_cycle`: cumulative Paris-law fatigue damage in
[0, 1] after cycle `cycle_num`, exactly as in the source (the
`T_celsius` argument is unused there as well). -/
def fatigue_damage_per_cycle (architecture : Architecture) (cycle_num : ℕ)
    (T_celsius DoD : ℝ) : ℝ :=
  let C_paris := 1e-12
  let m_paris := (15.0 : ℝ)
  let delta_sigma := architecture.cycling_stress_amplitude_MPa * DoD
  let delta_sigma_local := delta_sigma * architecture.stress_concentration_factor
  let a0 := 5e-6
  let delta_K := delta_sigma_local * Real.sqrt (Real.pi * a0)
  let K_IC := 1.0
  let da_dN :=
    if 0 < delta_K ∧ delta_K < K_IC then C_paris * (delta_K / K_IC) ^ m_paris
    else if K_IC ≤ delta_K then 1e-3
    else 0.0
  let a_cumulative := a0 + da_dN * ((cycle_num : ℝ) + 1)
  let a_critical := 100e-6
  min (a_cumulative / a_critical) 1.0

/-- `dendrite_nucleation_probability`: Boltzmann-suppressed nucleation
probability `P = P0 * exp(-W_eV / (kB T))`, falling back to the
unsuppressed `P0` when the per-atom barrier is not positive. -/
def dendrite_nucleation_probability (architecture : Architecture)
    (T_celsius current_density_mA_cm2 : ℝ) : ℝ :=
  let T := T_celsius + 273.15
  let P0 := 0.001 * (current_density_mA_cm2 / 0.33)
  let W_barrier := architecture.dendrite_barrier_MPa
  let Omega := 13.0e-6
  let W_per_atom_J := W_barrier * 1e6 * Omega / 6.022e23
  let W_per_atom_eV := W_per_atom_J / 1.602e-19
  let suppression :=
    if 0 < W_per_atom_eV then Real.exp (-W_per_atom_eV / (K_B_EV * T))
    else 1.0
  P0 * suppression

/-- State of the `run_cycle_life` loop: the dendrite-event counter and the
capacity accumulator (the SEI and fatigue contributions are pure
functions of the cycle index, so they need not be carried). -/
structure SimState where
  dendrite_events : ℕ
  capacity : ℝ

/-- One iteration of the `run_cycle_life` loop at cycle index `n`:
capacity is recomputed as one minus the three capacity losses and clamped
below at zero; the dendrite counter increments when the uniform draw
`u n` falls below the nucleation probability. -/
def simStep (architecture : Architecture) (T_celsius C_rate DoD : ℝ)
    (u : ℕ → ℝ) (n : ℕ) (s : SimState) : SimState :=
  let sei_nm := sei_growth_per_cycle architecture n T_celsius C_rate
  let cap_loss_sei := 0.0002 * sei_nm
  let fatigue := fatigue_damage_per_cycle architecture n T_celsius DoD
  let cap_loss_fatigue := 0.3 * fatigue
  let p_dendrite := dendrite_nucleation_probability architecture T_celsius 1.0
  let dendrite_events :=
    if u n < p_dendrite then s.dendrite_events + 1 else s.dendrite_events
  let cap_loss_dendrite := 0.02 * (dendrite_events : ℝ)
  let capacity := 1.0 - cap_loss_sei - cap_loss_fatigue - cap_loss_dendrite
  { dendrite_events := dendrite_events, capacity := max 0.0 capacity }

/-- The loop state of `run_cycle_life` after `n` iterations; `simState 0`
is the state just before the loop (`dendrite_events = 0`,
`capacity = 1.0`). -/
def simState (architecture : Architecture) (T_celsius C_rate DoD : ℝ)
    (u : ℕ → ℝ) : ℕ → SimState
  | 0 => { dendrite_events := 0, capacity := 1.0 }
  | n + 1 => simStep architecture T_celsius C_rate DoD u n
      (simState architecture T_celsius C_rate DoD u n)

end CycleLife

/-! ## Embedding of `born_solvation_quantum_sieve.py` -/

namespace BornSieve

/-- Avogadro's number, as defined in the source. -/
def N_A : ℝ := 6.02214076e23

/-- Elementary charge (C), as defined in the source. -/
def E_CHARGE : ℝ := 1.602176634e-19

/-- Vacuum permittivity (F/m), as defined in the source. -/
def EPSILON_0 : ℝ := 8.854187817e-12

/-- Boltzmann constant (J/K), as defined in the source. -/
def K_B : ℝ := 1.380649e-23

/-- The constant `PI = np.pi` of the source. -/
def PI : ℝ := Real.pi

/-- Unit conversion `NM_TO_M = 1e-9` of the source. -/
def NM_TO_M : ℝ := 1e-9

/-- Unit conversion `J_TO_KJ = 1e-3` of the source. -/
def J_TO_KJ : ℝ := 1e-3

/-- Record of properties of an ionic species
(`@dataclass IonSpecies` in `born_solvation_quantum_sieve.py`). -/
structure IonSpecies where
  name : String
  formula : String
  bare_radius_nm : ℝ
  solvated_radius_nm : ℝ
  charge : ℤ
  coordination_number : ℕ
  hydration_enthalpy_kJ_mol : ℝ
  description : String

/-- The `SPECIES` table entry for bare lithium. -/
def SPECIES_Li : IonSpecies :=
  { name := "Li (bare)", formula := "Li+", bare_radius_nm := 0.076
    solvated_radius_nm := 0.382, charge := 1, coordination_number := 4
    hydration_enthalpy_kJ_mol := 520, description := "Target transport species" }

/-- The `SPECIES` table entry for bare sodium. -/
def SPECIES_Na : IonSpecies :=
  { name := "Na (bare)", formula := "Na+", bare_radius_nm := 0.102
    solvated_radius_nm := 0.358, charge := 1, coordination_number := 6
    hydration_enthalpy_kJ_mol := 405, description := "Reference alkali ion" }

/-- The `SPECIES` table entry for the solvated Li(EC)4 complex. -/
def SPECIES_Li_EC4 : IonSpecies :=
  { name := "Li(EC)4 (solvated)", formula := "Li(EC)4+", bare_radius_nm := 0.076
    solvated_radius_nm := 0.450, charge := 1, coordination_number := 4
    hydration_enthalpy_kJ_mol := 520, description := "Solvated complex - MUST BE BLOCKED" }

/-- The `SPECIES` table entry for the hydrated Li(H2O)4 complex. -/
def SPECIES_Li_H2O4 : IonSpecies :=
  { name := "Li(H2O)4 (hydrated)", formula := "Li(H2O)4+", bare_radius_nm := 0.076
    solvated_radius_nm := 0.340, charge := 1, coordination_number := 4
    hydration_enthalpy_kJ_mol := 520, description := "Hydrated complex" }

/-- The `SPECIES` table entry for a metallic dendrite tip. -/
def SPECIES_dendrite_tip : IonSpecies :=
  { name := "Dendrite Tip", formula := "Li(metal)", bare_radius_nm := 50.0
    solvated_radius_nm := 50.0, charge := 0, coordination_number := 0
    hydration_enthalpy_kJ_mol := 0, description := "Metallic lithium protrusion - MUST BE BLOCKED" }

/-- `born_solvation_energy`: the Born solvation free energy in kJ/mol,
returning `0.0` on the domain guard `r_eff_m <= 0 or epsilon_r <= 0`. -/
def born_solvation_energy (z : ℤ) (r_eff_m epsilon_r : ℝ) : ℝ :=
  if r_eff_m ≤ 0 ∨ epsilon_r ≤ 0 then 0.0
  else
    -(N_A * (z : ℝ) ^ 2 * E_CHARGE ^ 2) / (8 * PI * EPSILON_0 * r_eff_m)
      * (1.0 - 1.0 / epsilon_r) * J_TO_KJ

/-- `confined_dielectric_constant`: sigmoid interpolation between the
vacuum-like and bulk dielectric constants, with the sigmoid argument
clipped to [-50, 50] as in the source. -/
def confined_dielectric_constant (pore_diameter_nm epsilon_bulk epsilon_vacuum
    d_critical_nm transition_width_nm : ℝ) : ℝ :=
  let x := (pore_diameter_nm - d_critical_nm) / transition_width_nm
  let xc := min (max x (-50)) 50
  let sigmoid := 1.0 / (1.0 + Real.exp (-xc))
  epsilon_vacuum + (epsilon_bulk - epsilon_vacuum) * sigmoid

/-- `dehydration_enthalpy`: the barrier (kJ/mol) for an ion entering a
nanopore; `float('inf')` (modelled by `⊤ : EReal`) under the steric check
`pore < 0.8 * solvated diameter`, otherwise the difference of Born
energies between the confined pore and the bulk. -/
def dehydration_enthalpy (pore_diameter_nm : ℝ) (ion : IonSpecies)
    (epsilon_bulk : ℝ) : EReal :=
  if pore_diameter_nm < 2.0 * ion.solvated_radius_nm * 0.8 then ⊤
  else
    let r_eff := ion.bare_radius_nm * NM_TO_M
    let G_bulk := born_solvation_energy ion.charge r_eff epsilon_bulk
    let epsilon_pore :=
      confined_dielectric_constant pore_diameter_nm epsilon_bulk 2.0 0.70 0.10
    let G_pore := born_solvation_energy ion.charge r_eff epsilon_pore
    ((G_pore - G_bulk : ℝ) : EReal)

end BornSieve

/-! ## Embedding of the Weibull failure curves of `generate_plots.py` and
`generate_all_figures.py` -/

namespace Figures

/-- The failure-probability curve of `generate_plots.py`
(`plot_failure_probability`): `(1 - exp(-(((p - 15).clip(0)) / 25) ** 3.5)) * 100`. -/
def plots_failure_prob (pressure : ℝ) : ℝ :=
  (1 - Real.exp (-(max (pressure - 15.0) 0 / 25.0) ^ (3.5 : ℝ))) * 100

/-- The failure-probability curve of `generate_all_figures.py`
(`generate_pressure_failure_curve`): zero at or below the 15 MPa
threshold, `1 - exp(-((p - 15) / 25) ** 3.5)` strictly above it, then
scaled to percent. -/
def figures_failure_prob (pressure : ℝ) : ℝ :=
  (if 15.0 < pressure then 1 - Real.exp (-((pressure - 15.0) / 25.0) ^ (3.5 : ℝ))
   else 0) * 100

end Figures

/-! ## Embedding of `verification_suite.py` -/

namespace VSuite

/-- Physical constant of the source. -/
def FARADAY : ℝ := 96485.0

/-- Physical constant of the source. -/
def BOLTZMANN : ℝ := 1.381e-23

/-- Physical constant of the source. -/
def ELEMENTARY_CHARGE : ℝ := 1.602e-19

/-- Material property of the source: lithium molar volume in m^3/mol. -/
def LI_MOLAR_VOLUME : ℝ := 13.0e-6

/-- Material property of the source: LLZO fracture toughness. -/
def LLZO_FRACTURE_TOUGHNESS : ℝ := 1.0

/-- Material property of the source: interface stress concentration. -/
def STRESS_CONCENTRATION_FACTOR : ℝ := 7.0

/-- Result of a single verification check
(`@dataclass VerificationResult` in `verification_suite.py`). -/
structure VerificationResult where
  name : String
  expected_value : ℝ
  calculated_value : ℝ
  tolerance_percent : ℝ
  unit : String
  passed : Bool
  notes : String

instance : Inhabited VerificationResult :=
  ⟨{ name := "", expected_value := 0, calculated_value := 0,
     tolerance_percent := 0, unit := "", passed := false, notes := "" }⟩

/-- The fields of `dendrite_suppression_results.json` that
`verify_dendrite_suppression` reads. -/
structure DendriteData where
  baseline_deflection : ℝ
  genesis_deflection : ℝ
  baseline_penetration : ℝ
  genesis_penetration : ℝ
  claimed_suppression : ℝ

/-- The fields of `conductivity_results.json` that
`verify_ionic_conductivity` reads. -/
structure ConductivityData where
  D : ℝ
  T : ℝ
  claimed_conductivity : ℝ
  n_ions : ℝ
  volume_nm3 : ℝ
  r_squared : ℝ

/-- `verify_dendrite_suppression`: the three dendrite-suppression checks,
each passing on a strict relative-error test. -/
def verify_dendrite_suppression (data : DendriteData) : List VerificationResult :=
  let calculated_suppression := data.baseline_deflection / data.genesis_deflection
  let calculated_reduction := data.baseline_penetration - data.genesis_penetration
  let required_W_MPa := FARADAY * 0.050 / LI_MOLAR_VOLUME / 1e6
  [ { name := "Dendrite Suppression Factor"
      expected_value := data.claimed_suppression
      calculated_value := calculated_suppression
      tolerance_percent := 1.0, unit := "x"
      passed := decide (|calculated_suppression - data.claimed_suppression|
        / data.claimed_suppression < 0.01)
      notes := "Calculated from deflection ratio" },
    { name := "Penetration Reduction"
      expected_value := 85.0
      calculated_value := calculated_reduction
      tolerance_percent := 1.0, unit := "%"
      passed := decide (|calculated_reduction - 85.0| / 85.0 < 0.01)
      notes := "Calculated from penetration difference" },
    { name := "Strain Energy Trap Threshold"
      expected_value := 370.0
      calculated_value := required_W_MPa
      tolerance_percent := 5.0, unit := "MPa"
      passed := decide (|required_W_MPa - 370.0| / 370.0 < 0.05)
      notes := "From W > F eta / Omega" } ]

/-- `verify_ionic_conductivity`: the Nernst-Einstein check (relative
error), the diffusion-coefficient range check, and the R-squared
threshold check. -/
def verify_ionic_conductivity (data : ConductivityData) : List VerificationResult :=
  let volume_m3 := data.volume_nm3 * 1e-27
  let n := data.n_ions / volume_m3
  let sigma_S_m := n * ELEMENTARY_CHARGE ^ 2 * data.D / (BOLTZMANN * data.T)
  let sigma_mS_cm := sigma_S_m * 10.0
  [ { name := "Ionic Conductivity (Nernst-Einstein)"
      expected_value := data.claimed_conductivity
      calculated_value := sigma_mS_cm
      tolerance_percent := 5.0, unit := "mS/cm"
      passed := decide (|sigma_mS_cm - data.claimed_conductivity|
        / data.claimed_conductivity < 0.05)
      notes := "Nernst-Einstein relation" },
    { name := "Diffusion Coefficient (Physical Range)"
      expected_value := 1.0e-13
      calculated_value := data.D
      tolerance_percent := 1000.0, unit := "m2/s"
      passed := decide (1e-14 < data.D ∧ data.D < 1e-11)
      notes := "Literature range for LLZO" },
    { name := "MSD Linear Fit Quality (R2)"
      expected_value := 0.90
      calculated_value := data.r_squared
      tolerance_percent := 10.0, unit := ""
      passed := decide (0.90 < data.r_squared)
      notes := "Valid diffusive regime" } ]

/-- First index of the minimum of a list of integers, accumulator form;
mirrors `np.argmin`, which keeps the earliest index on ties. -/
def np_argmin_aux : List ℤ → ℤ → ℕ → ℕ → ℕ
  | [], _, _, best => best
  | x :: xs, bv, i, best =>
      if x < bv then np_argmin_aux xs x (i + 1) i
      else np_argmin_aux xs bv (i + 1) best

/-- `np.argmin` over a list of integers (0 on the empty list, which does
not arise in the source: numpy raises there). -/
def np_argmin : List ℤ → ℕ
  | [] => 0
  | x :: xs => np_argmin_aux xs x 1 0

/-- `np.max` over a list of integers (0 on the empty list, which does not
arise in the source: numpy raises there). -/
def np_max : List ℤ → ℤ
  | [] => 0
  | x :: xs => xs.foldl max x

/-- `verify_cycle_life`: the four cycle-life checks computed from the
`cycle` and retention columns of `zero_pressure_cycling.csv`; all four
set `passed` by threshold predicates. -/
def verify_cycle_life (cycles : List ℤ) (retention : List ℝ) : List VerificationResult :=
  let max_cycles := np_max cycles
  let idx_1000 := np_argmin (cycles.map (fun c => |c - 1000|))
  let retention_at_1000 := retention.getD idx_1000 0
  let retention_diff := List.zipWith (fun a b => a - b) retention.tail retention
  let is_monotonic := ∀ x ∈ retention_diff, x ≤ 0.1
  let fade_rate := (100.0 - retention_at_1000) / (1000 / 100)
  [ { name := "Maximum Cycle Count"
      expected_value := 1000.0
      calculated_value := (max_cycles : ℝ)
      tolerance_percent := 0.1, unit := "cycles"
      passed := decide (1000 ≤ max_cycles)
      notes := "Target: at least 1000 cycles demonstrated" },
    { name := "Capacity Retention at 1000 Cycles"
      expected_value := 95.0
      calculated_value := retention_at_1000
      tolerance_percent := 1.0, unit := "%"
      passed := decide (95.0 ≤ retention_at_1000)
      notes := "Target: at least 95% retention at 1000 cycles" },
    { name := "Monotonic Degradation"
      expected_value := 1.0
      calculated_value := if is_monotonic then 1.0 else 0.0
      tolerance_percent := 0.0, unit := "(bool)"
      passed := decide is_monotonic
      notes := "No anomalous capacity gains detected" },
    { name := "Capacity Fade Rate"
      expected_value := 0.5
      calculated_value := fade_rate
      tolerance_percent := 50.0, unit := "% / 100 cycles"
      passed := decide (fade_rate < 1.0)
      notes := "Low fade rate indicates stable architecture" } ]

/-- `verify_critical_pressure`: the fracture-mechanics critical-pressure
check (relative error) and the stress-concentration range check. -/
def verify_critical_pressure : List VerificationResult :=
  let K_IC := LLZO_FRACTURE_TOUGHNESS
  let K_t := STRESS_CONCENTRATION_FACTOR
  let a := 10e-6
  let sigma_critical := K_IC / Real.sqrt (Real.pi * a)
  let P_critical := sigma_critical / K_t
  [ { name := "Critical Pressure Threshold"
      expected_value := 25.0
      calculated_value := P_critical
      tolerance_percent := 10.0, unit := "MPa"
      passed := decide (|P_critical - 25.0| / 25.0 < 0.10)
      notes := "From sigma_crit / K_t" },
    { name := "Stress Concentration Factor"
      expected_value := 7.0
      calculated_value := K_t
      tolerance_percent := 30.0, unit := ""
      passed := decide (5.0 < K_t ∧ K_t < 10.0)
      notes := "Literature range: 5-10 for polycrystalline ceramics" } ]

/-- All data read by `run_full_verification`; a failed load (any
exception while reading a data file) is modelled by passing `none`
instead of a `some` of this record. -/
structure InputData where
  dendrite : DendriteData
  conductivity : ConductivityData
  cycles : List ℤ
  retention : List ℝ

/-- `run_full_verification`: on a successful load, the concatenation of
the four check lists together with the aggregate flag
`passed-count = total`; on a load failure the caught exception yields
`([], False)`. -/
def run_full_verification (input : Option InputData) :
    List VerificationResult × Bool :=
  match input with
  | none => ([], false)
  | some d =>
      let all_results :=
        verify_dendrite_suppression d.dendrite
          ++ verify_ionic_conductivity d.conductivity
          ++ verify_cycle_life d.cycles d.retention
          ++ verify_critical_pressure
      (all_results,
        decide (all_results.countP (fun r => r.passed) = all_results.length))

/-- The process exit status of the `__main__` block:
`sys.exit(0 if all_passed else 1)`. -/
def mainExit (input : Option InputData) : ℕ :=
  if (run_full_verification input).2 then 0 else 1

end VSuite

/-! ## Theorems -/

/-- C8: the two derived methods of the `Architecture` record are pure
functions of the record's fields (so calling them cannot change any
field): the stress amplitude equals `2.0 * stress_concentration_factor`
(MPa) and the dendrite barrier equals
`0.5 * K_constraint_GPa * 1000 * 0.05 ^ 2` (MPa); moreover each value
depends only on the single field appearing in its formula. -/
theorem architecture_derived_methods (a : CycleLife.Architecture) :
    a.cycling_stress_amplitude_MPa = 2.0 * a.stress_concentration_factor ∧
    a.dendrite_barrier_MPa = 0.5 * a.K_constraint_GPa * 1000 * 0.05 ^ 2 ∧
    (∀ b : CycleLife.Architecture,
      b.stress_concentration_factor = a.stress_concentration_factor →
      b.cycling_stress_amplitude_MPa = a.cycling_stress_amplitude_MPa) ∧
    (∀ b : CycleLife.Architecture,
      b.K_constraint_GPa = a.K_constraint_GPa →
      b.dendrite_barrier_MPa = a.dendrite_barrier_MPa) := by
  refine ⟨rfl, rfl, ?_, ?_⟩ <;> intro b h <;>
    simp [CycleLife.Architecture.cycling_stress_amplitude_MPa,
      CycleLife.Architecture.dendrite_barrier_MPa, h]

/-- C3: for a positive radius and positive dielectric constant,
`born_solvation_energy` returns exactly the closed-form Born expression
with the source's constants, converted to kJ/mol. -/
theorem born_solvation_energy_formula (z : ℤ) (r_eff_m epsilon_r : ℝ)
    (hr : 0 < r_eff_m) (he : 0 < epsilon_r) :
    BornSieve.born_solvation_energy z r_eff_m epsilon_r =
      -(6.02214076e23 * (z : ℝ) ^ 2 * (1.602176634e-19) ^ 2)
        / (8 * Real.pi * 8.854187817e-12 * r_eff_m)
        * (1 - 1 / epsilon_r) * 1e-3 := by
  have hcond : ¬ (r_eff_m ≤ 0 ∨ epsilon_r ≤ 0) := by push_neg; exact ⟨hr, he⟩
  simp only [BornSieve.born_solvation_energy, if_neg hcond,
    BornSieve.N_A, BornSieve.E_CHARGE, BornSieve.EPSILON_0, BornSieve.PI,
    BornSieve.J_TO_KJ]
  norm_num

/-- Witness for C3 at `z = 1`, `r_eff_m = 1`, `epsilon_r = 2`. -/
theorem born_solvation_energy_formula_witness :
    (0 : ℝ) < 1 ∧ (0 : ℝ) < 2 ∧
    BornSieve.born_solvation_energy 1 1 2 =
      -(6.02214076e23 * ((1 : ℤ) : ℝ) ^ 2 * (1.602176634e-19) ^ 2)
        / (8 * Real.pi * 8.854187817e-12 * 1) * (1 - 1 / 2) * 1e-3 :=
  ⟨by norm_num, by norm_num, born_solvation_energy_formula 1 1 2 (by norm_num) (by norm_num)⟩

/-- C4: on the domain guard `r_eff_m <= 0 or epsilon_r <= 0`,
`born_solvation_energy` returns exactly `0.0` (it is a total function, so
no exception is possible). -/
theorem born_solvation_energy_guard (z : ℤ) (r_eff_m epsilon_r : ℝ)
    (h : r_eff_m ≤ 0 ∨ epsilon_r ≤ 0) :
    BornSieve.born_solvation_energy z r_eff_m epsilon_r = 0 := by
  simp only [BornSieve.born_solvation_energy, if_pos h]
  norm_num

/-- Witness for C4 at `z = 1`, `r_eff_m = -1`, `epsilon_r = 30`. -/
theorem born_solvation_energy_guard_witness :
    ((-1 : ℝ) ≤ 0 ∨ (30 : ℝ) ≤ 0) ∧
    BornSieve.born_solvation_energy 1 (-1) 30 = 0 :=
  ⟨Or.inl (by norm_num), born_solvation_energy_guard 1 (-1) 30 (Or.inl (by norm_num))⟩

/-- C2: the script's exit status is always 0 or 1, and it is 0 exactly
when the data load succeeded and every `VerificationResult` in the
aggregate list passed; in particular a load failure (`none`), which
yields the empty result list flagged unsuccessful, exits with status 1. -/
theorem verification_exit_code_iff (input : Option VSuite.InputData) :
    (VSuite.mainExit input = 0 ∨ VSuite.mainExit input = 1) ∧
    (VSuite.mainExit input = 0 ↔
      (∃ d, input = some d) ∧
        ∀ r ∈ (VSuite.run_full_verification input).1, r.passed = true) := by
  cases input with
  | none =>
      refine ⟨Or.inr rfl, ?_⟩
      simp [VSuite.mainExit, VSuite.run_full_verification]
  | some d =>
      constructor
      · by_cases h : (VSuite.run_full_verification (some d)).2 = true
        · exact Or.inl (by simp [VSuite.mainExit, h])
        · exact Or.inr (by simp [VSuite.mainExit, h])
      · rw [show VSuite.mainExit (some d)
            = if (VSuite.run_full_verification (some d)).2 then 0 else 1 from rfl]
        have hsnd : (VSuite.run_full_verification (some d)).2
            = decide ((VSuite.run_full_verification (some d)).1.countP
                (fun r => r.passed)
              = (VSuite.run_full_verification (some d)).1.length) := rfl
        rw [hsnd]
        by_cases hc : (VSuite.run_full_verification (some d)).1.countP
            (fun r => r.passed)
          = (VSuite.run_full_verification (some d)).1.length
        · simp only [hc, decide_True, if_true, true_iff]
          exact ⟨⟨d, rfl⟩, List.countP_eq_length.mp hc⟩
        · simp only [hc, decide_False, if_false]
          constructor
          · intro h; exact absurd h (by norm_num)
          · rintro ⟨-, hall⟩
            exact absurd (List.countP_eq_length.mpr hall) hc

/-- C6 counterexample: a data-load failure does not abort the run as an
unhandled exception; `run_full_verification` catches it and returns the
empty result list flagged unsuccessful, and the process still exits in
an orderly way with status 1. -/
theorem load_failure_returns_normally :
    VSuite.run_full_verification none = ([], false) ∧ VSuite.mainExit none = 1 :=
  ⟨rfl, rfl⟩

/-- C6 (amended): a failed data load is caught inside
`run_full_verification`; the result list is empty, the aggregate flag is
false, and the exit status is 1 rather than an uncaught abort. -/
theorem load_failure_caught :
    (VSuite.run_full_verification none).1 = [] ∧
    (VSuite.run_full_verification none).2 = false ∧
    VSuite.mainExit none = 1 :=
  ⟨rfl, rfl, rfl⟩

/-- C1 counterexample: the "Maximum Cycle Count" check produced by
`verify_cycle_life` on the cycling data `cycles = [0, 1000, 2000]`,
`retention = [100, 96, 92]` has `passed = true` (because
`max_cycles >= 1000`) even though its calculated value 2000 differs from
its expected value 1000 by far more than its stated tolerance of 0.1
percent; so `passed` is not equivalent to the relative-error criterion. -/
theorem tolerance_claim_counterexample :
    ∃ r ∈ VSuite.verify_cycle_life [0, 1000, 2000] [100, 96, 92],
      r.passed = true ∧
      ¬ (|r.calculated_value - r.expected_value| / r.expected_value
          ≤ r.tolerance_percent / 100) := by
  have hm : VSuite.np_max [0, 1000, 2000] = 2000 := by decide
  simp only [VSuite.verify_cycle_life]
  refine ⟨_, List.mem_cons_self _ _, ?_, ?_⟩
  · simp only [decide_eq_true_eq, hm]
    norm_num
  · simp only [hm]
    norm_num

/-- C1 (amended): the five relative-error checks of the suite (the three
dendrite-suppression checks, the Nernst-Einstein conductivity check and
the critical-pressure check) set `passed` exactly when
`|calculated - expected| / expected` is strictly below
`tolerance_percent / 100`; the remaining checks use threshold or range
predicates instead. -/
theorem relative_error_checks (d : VSuite.DendriteData) (c : VSuite.ConductivityData) :
    (∀ r ∈ VSuite.verify_dendrite_suppression d,
      (r.passed = true ↔
        |r.calculated_value - r.expected_value| / r.expected_value
          < r.tolerance_percent / 100)) ∧
    ((VSuite.verify_ionic_conductivity c).headI.passed = true ↔
      |(VSuite.verify_ionic_conductivity c).headI.calculated_value
          - (VSuite.verify_ionic_conductivity c).headI.expected_value|
        / (VSuite.verify_ionic_conductivity c).headI.expected_value
        < (VSuite.verify_ionic_conductivity c).headI.tolerance_percent / 100) ∧
    (VSuite.verify_critical_pressure.headI.passed = true ↔
      |VSuite.verify_critical_pressure.headI.calculated_value
          - VSuite.verify_critical_pressure.headI.expected_value|
        / VSuite.verify_critical_pressure.headI.expected_value
        < VSuite.verify_critical_pressure.headI.tolerance_percent / 100) := by
  refine ⟨?_, ?_, ?_⟩
  · intro r hr
    simp only [VSuite.verify_dendrite_suppression, List.mem_cons,
      List.not_mem_nil, or_false] at hr
    rcases hr with rfl | rfl | rfl <;>
      simp only [decide_eq_true_eq] <;> norm_num
  · simp only [VSuite.verify_ionic_conductivity, List.headI,
      decide_eq_true_eq]
    norm_num
  · simp only [VSuite.verify_critical_pressure, List.headI,
      decide_eq_true_eq]
    norm_num

/-- Helper: `sqrt (c * x)` is monotone in a nonnegative `x` for every
scalar `c` (for negative `c` both arguments are nonpositive and both
square roots vanish). -/
theorem sqrt_linear_index_mono (c x y : ℝ) (hx : 0 ≤ x) (hxy : x ≤ y) :
    Real.sqrt (c * x) ≤ Real.sqrt (c * y) := by
  rcases le_or_lt 0 c with hc | hc
  · exact Real.sqrt_le_sqrt (by nlinarith)
  · have h1 : c * x ≤ 0 := by nlinarith
    have h2 : c * y ≤ 0 := by nlinarith
    rw [Real.sqrt_eq_zero'.mpr h1, Real.sqrt_eq_zero'.mpr h2]

/-- Helper: the square-root factor of the parabolic SEI law grows with
the cycle index. -/
theorem sqrt_shape_mono (D t : ℝ) (n : ℕ) :
    Real.sqrt (2 * D * (t * ((n : ℝ) + 1)))
      ≤ Real.sqrt (2 * D * (t * (((n + 1 : ℕ) : ℝ) + 1))) := by
  have e1 : 2 * D * (t * ((n : ℝ) + 1)) = 2 * D * t * ((n : ℝ) + 1) := by ring
  have e2 : 2 * D * (t * (((n + 1 : ℕ) : ℝ) + 1)) = 2 * D * t * ((n : ℝ) + 2) := by
    push_cast; ring
  rw [e1, e2]
  exact sqrt_linear_index_mono _ _ _ (by positivity) (by linarith)

/-- Helper: the SEI thickness computed by `sei_growth_per_cycle` is
nonnegative. -/
theorem sei_growth_nonneg (a : CycleLife.Architecture) (n : ℕ) (T C : ℝ) :
    0 ≤ CycleLife.sei_growth_per_cycle a n T C := by
  simp only [CycleLife.sei_growth_per_cycle]
  positivity

/-- Helper: the SEI thickness computed by `sei_growth_per_cycle` is
non-decreasing in the cycle index. -/
theorem sei_growth_mono (a : CycleLife.Architecture) (n : ℕ) (T C : ℝ) :
    CycleLife.sei_growth_per_cycle a n T C
      ≤ CycleLife.sei_growth_per_cycle a (n + 1) T C := by
  simp only [CycleLife.sei_growth_per_cycle]
  exact mul_le_mul_of_nonneg_right (sqrt_shape_mono _ _ n) (by norm_num)

/-- Helper: the Paris-law crack growth increment is nonnegative in every
branch. -/
theorem paris_da_dN_nonneg (dK : ℝ) :
    0 ≤ (if 0 < dK ∧ dK < 1.0 then 1e-12 * (dK / 1.0) ^ (15.0 : ℝ)
         else if 1.0 ≤ dK then 1e-3 else 0.0) := by
  split_ifs with h1 h2
  · exact mul_nonneg (by norm_num)
      (Real.rpow_nonneg (div_nonneg h1.1.le (by norm_num)) _)
  · norm_num
  · norm_num

/-- Helper: the cumulative fatigue damage is nonnegative. -/
theorem fatigue_damage_nonneg (a : CycleLife.Architecture) (n : ℕ) (T DoD : ℝ) :
    0 ≤ CycleLife.fatigue_damage_per_cycle a n T DoD := by
  simp only [CycleLife.fatigue_damage_per_cycle]
  have h := paris_da_dN_nonneg
    (a.cycling_stress_amplitude_MPa * DoD * a.stress_concentration_factor
      * Real.sqrt (Real.pi * 5e-6))
  apply le_min _ (by norm_num)
  apply div_nonneg _ (by norm_num)
  have hc : (0 : ℝ) ≤ (n : ℝ) + 1 := by positivity
  nlinarith

/-- Helper: the cumulative fatigue damage is non-decreasing in the cycle
index. -/
theorem fatigue_damage_mono (a : CycleLife.Architecture) (n : ℕ) (T DoD : ℝ) :
    CycleLife.fatigue_damage_per_cycle a n T DoD
      ≤ CycleLife.fatigue_damage_per_cycle a (n + 1) T DoD := by
  simp only [CycleLife.fatigue_damage_per_cycle]
  have h := paris_da_dN_nonneg
    (a.cycling_stress_amplitude_MPa * DoD * a.stress_concentration_factor
      * Real.sqrt (Real.pi * 5e-6))
  apply min_le_min _ le_rfl
  rw [div_le_div_iff_of_pos_right (by norm_num : (0 : ℝ) < 100e-6)]
  have hle : ((n : ℝ) + 1) ≤ ((n + 1 : ℕ) : ℝ) + 1 := by push_cast; linarith
  nlinarith

/-- Helper: one `run_cycle_life` iteration never decreases the dendrite
counter. -/
theorem simStep_events_le (a : CycleLife.Architecture) (T C DoD : ℝ)
    (u : ℕ → ℝ) (n : ℕ) (s : CycleLife.SimState) :
    s.dendrite_events ≤ (CycleLife.simStep a T C DoD u n s).dendrite_events := by
  have hev : (CycleLife.simStep a T C DoD u n s).dendrite_events
      = if u n < CycleLife.dendrite_nucleation_probability a T 1.0
        then s.dendrite_events + 1 else s.dendrite_events := rfl
  rw [hev]; split <;> omega

/-- Helper: the capacity after iteration `n` of the `run_cycle_life`
loop, written in terms of the three loss terms of the source. -/
theorem simState_capacity_succ (a : CycleLife.Architecture) (T C DoD : ℝ)
    (u : ℕ → ℝ) (n : ℕ) :
    (CycleLife.simState a T C DoD u (n + 1)).capacity
      = max 0.0 (1.0 - 0.0002 * CycleLife.sei_growth_per_cycle a n T C
          - 0.3 * CycleLife.fatigue_damage_per_cycle a n T DoD
          - 0.02 * ((CycleLife.simState a T C DoD u (n + 1)).dendrite_events : ℝ)) :=
  rfl

/-- Helper: the dendrite counter of the loop state is non-decreasing. -/
theorem simState_events_mono (a : CycleLife.Architecture) (T C DoD : ℝ)
    (u : ℕ → ℝ) (n : ℕ) :
    (CycleLife.simState a T C DoD u n).dendrite_events
      ≤ (CycleLife.simState a T C DoD u (n + 1)).dendrite_events :=
  simStep_events_le a T C DoD u n (CycleLife.simState a T C DoD u n)

/-- Helper: the capacity accumulator is nonnegative after every
iteration. -/
theorem simState_capacity_nonneg (a : CycleLife.Architecture) (T C DoD : ℝ)
    (u : ℕ → ℝ) (n : ℕ) :
    0 ≤ (CycleLife.simState a T C DoD u n).capacity := by
  cases n with
  | zero => norm_num [CycleLife.simState]
  | succ m =>
      rw [simState_capacity_succ]
      exact le_max_of_le_left (by norm_num)

/-- Helper: the capacity accumulator never exceeds one. -/
theorem simState_capacity_le_one (a : CycleLife.Architecture) (T C DoD : ℝ)
    (u : ℕ → ℝ) (n : ℕ) :
    (CycleLife.simState a T C DoD u n).capacity ≤ 1 := by
  cases n with
  | zero => norm_num [CycleLife.simState]
  | succ m =>
      rw [simState_capacity_succ]
      apply max_le (by norm_num)
      have h1 := sei_growth_nonneg a m T C
      have h2 := fatigue_damage_nonneg a m T DoD
      have h3 : (0 : ℝ)
          ≤ ((CycleLife.simState a T C DoD u (m + 1)).dendrite_events : ℝ) :=
        Nat.cast_nonneg _
      linarith

/-- Helper: the capacity accumulator is non-increasing from one
iteration to the next. -/
theorem simState_capacity_antitone (a : CycleLife.Architecture) (T C DoD : ℝ)
    (u : ℕ → ℝ) (n : ℕ) :
    (CycleLife.simState a T C DoD u (n + 1)).capacity
      ≤ (CycleLife.simState a T C DoD u n).capacity := by
  cases n with
  | zero =>
      have h := simState_capacity_le_one a T C DoD u 1
      have h0 : (CycleLife.simState a T C DoD u 0).capacity = 1.0 := rfl
      rw [h0]
      exact h.trans (by norm_num)
  | succ m =>
      rw [simState_capacity_succ a T C DoD u (m + 1),
        simState_capacity_succ a T C DoD u m]
      apply max_le_max le_rfl
      have hsei := sei_growth_mono a m T C
      have hfat := fatigue_damage_mono a m T DoD
      have hev : ((CycleLife.simState a T C DoD u (m + 1)).dendrite_events : ℝ)
          ≤ ((CycleLife.simState a T C DoD u (m + 2)).dendrite_events : ℝ) :=
        Nat.cast_le.mpr (simState_events_mono a T C DoD u (m + 1))
      linarith

/-- C5: in every execution of the `run_cycle_life` loop (any
architecture, any temperature, C-rate and depth of discharge, and any
outcome `u` of the per-cycle random draws), the capacity accumulator
starts at 1.0, lies in [0, 1] after every iteration, and is
non-increasing from one iteration to the next. -/
theorem cycle_life_capacity_invariant (a : CycleLife.Architecture)
    (T_celsius C_rate DoD : ℝ) (u : ℕ → ℝ) (n : ℕ) :
    (CycleLife.simState a T_celsius C_rate DoD u 0).capacity = 1 ∧
    0 ≤ (CycleLife.simState a T_celsius C_rate DoD u n).capacity ∧
    (CycleLife.simState a T_celsius C_rate DoD u n).capacity ≤ 1 ∧
    (CycleLife.simState a T_celsius C_rate DoD u (n + 1)).capacity
      ≤ (CycleLife.simState a T_celsius C_rate DoD u n).capacity :=
  ⟨by norm_num [CycleLife.simState],
   simState_capacity_nonneg a T_celsius C_rate DoD u n,
   simState_capacity_le_one a T_celsius C_rate DoD u n,
   simState_capacity_antitone a T_celsius C_rate DoD u n⟩

/-- Helper: `dendrite_nucleation_probability` written with the barrier
formula inlined (definitional unfolding of the source expressions). -/
theorem dnp_eval_eq (a : CycleLife.Architecture) (T j : ℝ) :
    CycleLife.dendrite_nucleation_probability a T j
      = 0.001 * (j / 0.33)
        * (if 0 < 0.5 * a.K_constraint_GPa * 1000 * 0.05 ^ 2 * 1e6 * 13.0e-6
              / 6.022e23 / 1.602e-19
           then Real.exp (-(0.5 * a.K_constraint_GPa * 1000 * 0.05 ^ 2 * 1e6
              * 13.0e-6 / 6.022e23 / 1.602e-19)
             / (CycleLife.K_B_EV * (T + 273.15)))
           else 1.0) :=
  rfl

/-- Helper: the Boltzmann suppression factor is in (0, 1] whenever the
thermal energy is positive and the barrier nonnegative. -/
theorem suppression_bounds (w kbT : ℝ) (hkbT : 0 < kbT) :
    0 < (if 0 < w then Real.exp (-w / kbT) else 1.0) ∧
    (if 0 < w then Real.exp (-w / kbT) else 1.0) ≤ 1 := by
  split_ifs with hw
  · refine ⟨Real.exp_pos _, ?_⟩
    rw [Real.exp_le_one_iff]
    have : 0 < w / kbT := div_pos hw hkbT
    have hneg : -w / kbT = -(w / kbT) := by ring
    rw [hneg]; linarith
  · norm_num

/-- Helper: the Boltzmann suppression factor is antitone in the barrier
for nonnegative barriers. -/
theorem suppression_mono (w1 w2 kbT : ℝ) (hkbT : 0 < kbT) (h12 : w1 ≤ w2) :
    (if 0 < w2 then Real.exp (-w2 / kbT) else 1.0)
      ≤ (if 0 < w1 then Real.exp (-w1 / kbT) else 1.0) := by
  split_ifs with h2 h1 h1
  · exact Real.exp_le_exp.mpr
      ((div_le_div_iff_of_pos_right hkbT).mpr (neg_le_neg h12))
  · have hle : Real.exp (-w2 / kbT) ≤ 1 := by
      rw [Real.exp_le_one_iff]
      have : 0 < w2 / kbT := div_pos h2 hkbT
      have hneg : -w2 / kbT = -(w2 / kbT) := by ring
      rw [hneg]; linarith
    exact hle.trans (by norm_num)
  · exact absurd (lt_of_lt_of_le h1 h12) h2
  · exact le_refl _

/-- C7 counterexample: at current density 0 the nucleation probability is
0, which is not in the claimed open-closed interval (0, P0] (there
P0 = 0); and below absolute zero (T_celsius = -373.15) the Boltzmann
factor exceeds 1, so the probability exceeds P0. -/
theorem dendrite_probability_domain_counterexample :
    CycleLife.dendrite_nucleation_probability CycleLife.BASELINE 25 0 = 0 ∧
    0.001 * ((1 : ℝ) / 0.33)
      < CycleLife.dendrite_nucleation_probability CycleLife.GENESIS (-373.15) 1 := by
  constructor
  · rw [dnp_eval_eq]
    norm_num
  · rw [dnp_eval_eq]
    have hKG : CycleLife.GENESIS.K_constraint_GPa = 6.7 := rfl
    rw [hKG, if_pos (by norm_num)]
    have harg : (0 : ℝ)
        < -(0.5 * 6.7 * 1000 * 0.05 ^ 2 * 1e6 * 13.0e-6 / 6.022e23 / 1.602e-19)
          / (CycleLife.K_B_EV * (-373.15 + 273.15)) := by
      apply div_pos_of_neg_of_neg
      · norm_num
      · norm_num [CycleLife.K_B_EV]
    have hexp := Real.one_lt_exp_iff.mpr harg
    have hP0 : (0 : ℝ) < 0.001 * ((1 : ℝ) / 0.33) := by norm_num
    nlinarith

/-- C7 (amended): for every temperature above absolute zero and every
strictly positive current density, and for architectures differing only
in a nonnegative `K_constraint_GPa`, the nucleation probability lies in
(0, P0] with P0 = 0.001 * j / 0.33, is antitone in `K_constraint_GPa`,
and equals P0 exactly at `K_constraint_GPa = 0`. -/
theorem dendrite_probability_range_mono (a : CycleLife.Architecture)
    (T j K2 : ℝ) (hT : -273.15 < T) (hj : 0 < j)
    (hK : 0 ≤ a.K_constraint_GPa) (hK2 : a.K_constraint_GPa ≤ K2) :
    (0 < CycleLife.dendrite_nucleation_probability a T j ∧
      CycleLife.dendrite_nucleation_probability a T j ≤ 0.001 * (j / 0.33)) ∧
    CycleLife.dendrite_nucleation_probability
        { a with K_constraint_GPa := K2 } T j
      ≤ CycleLife.dendrite_nucleation_probability a T j ∧
    (a.K_constraint_GPa = 0 →
      CycleLife.dendrite_nucleation_probability a T j = 0.001 * (j / 0.33)) := by
  have hkbT : 0 < CycleLife.K_B_EV * (T + 273.15) := by
    have h1 : (0 : ℝ) < T + 273.15 := by linarith
    have h2 : (0 : ℝ) < CycleLife.K_B_EV := by norm_num [CycleLife.K_B_EV]
    positivity
  have hP0 : (0 : ℝ) < 0.001 * (j / 0.33) := by positivity
  have hW : ∀ K : ℝ, 0.5 * K * 1000 * 0.05 ^ 2 * 1e6 * 13.0e-6 / 6.022e23 / 1.602e-19
      = K * (0.5 * 1000 * 0.05 ^ 2 * 1e6 * 13.0e-6 / 6.022e23 / 1.602e-19) :=
    fun K => by ring
  have hcoef : (0 : ℝ)
      < 0.5 * 1000 * 0.05 ^ 2 * 1e6 * 13.0e-6 / 6.022e23 / 1.602e-19 := by
    norm_num
  rw [dnp_eval_eq a T j, dnp_eval_eq { a with K_constraint_GPa := K2 } T j]
  dsimp only
  rw [hW a.K_constraint_GPa, hW K2]
  obtain ⟨hs_pos, hs_le⟩ :=
    suppression_bounds (a.K_constraint_GPa
      * (0.5 * 1000 * 0.05 ^ 2 * 1e6 * 13.0e-6 / 6.022e23 / 1.602e-19))
      (CycleLife.K_B_EV * (T + 273.15)) hkbT
  refine ⟨⟨mul_pos hP0 hs_pos, mul_le_of_le_one_right hP0.le hs_le⟩, ?_, ?_⟩
  · have hmono := suppression_mono
      (a.K_constraint_GPa
        * (0.5 * 1000 * 0.05 ^ 2 * 1e6 * 13.0e-6 / 6.022e23 / 1.602e-19))
      (K2 * (0.5 * 1000 * 0.05 ^ 2 * 1e6 * 13.0e-6 / 6.022e23 / 1.602e-19))
      (CycleLife.K_B_EV * (T + 273.15)) hkbT
      (mul_le_mul_of_nonneg_right hK2 hcoef.le)
    exact mul_le_mul_of_nonneg_left hmono hP0.le
  · intro h0
    rw [h0]
    norm_num

/-- Witness for C7 (amended) at `T_celsius = 25`, `j = 1`, the `GENESIS`
architecture and the larger stiffness `K2 = 7`. -/
theorem dendrite_probability_range_mono_witness :
    -273.15 < (25 : ℝ) ∧ (0 : ℝ) < 1 ∧
    0 ≤ CycleLife.GENESIS.K_constraint_GPa ∧
    CycleLife.GENESIS.K_constraint_GPa ≤ 7 ∧
    ((0 < CycleLife.dendrite_nucleation_probability CycleLife.GENESIS 25 1 ∧
      CycleLife.dendrite_nucleation_probability CycleLife.GENESIS 25 1
        ≤ 0.001 * (1 / 0.33)) ∧
     CycleLife.dendrite_nucleation_probability
        { CycleLife.GENESIS with K_constraint_GPa := 7 } 25 1
       ≤ CycleLife.dendrite_nucleation_probability CycleLife.GENESIS 25 1 ∧
     (CycleLife.GENESIS.K_constraint_GPa = 0 →
       CycleLife.dendrite_nucleation_probability CycleLife.GENESIS 25 1
         = 0.001 * (1 / 0.33))) :=
  ⟨by norm_num, by norm_num, by norm_num [CycleLife.GENESIS],
   by norm_num [CycleLife.GENESIS],
   dendrite_probability_range_mono CycleLife.GENESIS 25 1 7 (by norm_num)
     (by norm_num) (by norm_num [CycleLife.GENESIS])
     (by norm_num [CycleLife.GENESIS])⟩

/-- Helper: the confined dielectric constant at bulk value 30 and the
default sigmoid parameters lies strictly between 2 and 30. -/
theorem confined_dielectric_bounds (d : ℝ) :
    2 < BornSieve.confined_dielectric_constant d 30 2.0 0.70 0.10 ∧
    BornSieve.confined_dielectric_constant d 30 2.0 0.70 0.10 < 30 := by
  simp only [BornSieve.confined_dielectric_constant]
  set xc := min (max ((d - 0.70) / 0.10) (-50)) 50 with hxc
  have he : 0 < Real.exp (-xc) := Real.exp_pos _
  have h1 : (0 : ℝ) < 1.0 + Real.exp (-xc) := by linarith
  have hs0 : 0 < 1.0 / (1.0 + Real.exp (-xc)) := by positivity
  have hs1 : 1.0 / (1.0 + Real.exp (-xc)) < 1 := by
    rw [div_lt_one h1]; linarith
  constructor <;> nlinarith

/-- C10: with the default bulk dielectric constant 30 and a positive bare
radius, `dehydration_enthalpy` is infinite exactly under the steric
exclusion `pore < 0.8 * (2 * solvated_radius_nm)`, is otherwise a finite
nonnegative value, and the confined dielectric constant indeed always
lies strictly between 2 and 30. -/
theorem dehydration_enthalpy_spec (ion : BornSieve.IonSpecies) (d : ℝ)
    (h : 0 < ion.bare_radius_nm) :
    (BornSieve.dehydration_enthalpy d ion 30 = ⊤ ↔
      d < 0.8 * (2 * ion.solvated_radius_nm)) ∧
    (0.8 * (2 * ion.solvated_radius_nm) ≤ d →
      ∃ v : ℝ, BornSieve.dehydration_enthalpy d ion 30 = (v : EReal) ∧ 0 ≤ v) ∧
    2 < BornSieve.confined_dielectric_constant d 30 2.0 0.70 0.10 ∧
    BornSieve.confined_dielectric_constant d 30 2.0 0.70 0.10 < 30 := by
  obtain ⟨hlo, hhi⟩ := confined_dielectric_bounds d
  have hrm : (0 : ℝ) < ion.bare_radius_nm * BornSieve.NM_TO_M := by
    have hn : (0 : ℝ) < BornSieve.NM_TO_M := by norm_num [BornSieve.NM_TO_M]
    positivity
  have hfin : ∀ hd : ¬ d < 2.0 * ion.solvated_radius_nm * 0.8,
      ∃ v : ℝ, BornSieve.dehydration_enthalpy d ion 30 = (v : EReal) ∧ 0 ≤ v := by
    intro hd
    simp only [BornSieve.dehydration_enthalpy, if_neg hd]
    refine ⟨_, rfl, ?_⟩
    set εp := BornSieve.confined_dielectric_constant d 30 2.0 0.70 0.10 with hεp
    have hεp0 : (0 : ℝ) < εp := by linarith
    have hGb : BornSieve.born_solvation_energy ion.charge
        (ion.bare_radius_nm * BornSieve.NM_TO_M) 30
        = -(BornSieve.N_A * (ion.charge : ℝ) ^ 2 * BornSieve.E_CHARGE ^ 2)
            / (8 * BornSieve.PI * BornSieve.EPSILON_0
              * (ion.bare_radius_nm * BornSieve.NM_TO_M))
            * (1.0 - 1.0 / 30) * BornSieve.J_TO_KJ := by
      simp only [BornSieve.born_solvation_energy,
        if_neg (by push_neg; exact ⟨hrm, by norm_num⟩ :
          ¬ (ion.bare_radius_nm * BornSieve.NM_TO_M ≤ 0 ∨ (30 : ℝ) ≤ 0))]
    have hGp : BornSieve.born_solvation_energy ion.charge
        (ion.bare_radius_nm * BornSieve.NM_TO_M) εp
        = -(BornSieve.N_A * (ion.charge : ℝ) ^ 2 * BornSieve.E_CHARGE ^ 2)
            / (8 * BornSieve.PI * BornSieve.EPSILON_0
              * (ion.bare_radius_nm * BornSieve.NM_TO_M))
            * (1.0 - 1.0 / εp) * BornSieve.J_TO_KJ := by
      simp only [BornSieve.born_solvation_energy,
        if_neg (by push_neg; exact ⟨hrm, hεp0⟩ :
          ¬ (ion.bare_radius_nm * BornSieve.NM_TO_M ≤ 0 ∨ εp ≤ 0))]
    rw [hGp, hGb]
    have hnum : (0 : ℝ)
        ≤ BornSieve.N_A * (ion.charge : ℝ) ^ 2 * BornSieve.E_CHARGE ^ 2 := by
      have h1 : (0 : ℝ) < BornSieve.N_A := by norm_num [BornSieve.N_A]
      have h2 : (0 : ℝ) < BornSieve.E_CHARGE := by norm_num [BornSieve.E_CHARGE]
      positivity
    have hden : (0 : ℝ) < 8 * BornSieve.PI * BornSieve.EPSILON_0
        * (ion.bare_radius_nm * BornSieve.NM_TO_M) := by
      have h1 : (0 : ℝ) < BornSieve.PI := Real.pi_pos
      have h2 : (0 : ℝ) < BornSieve.EPSILON_0 := by norm_num [BornSieve.EPSILON_0]
      positivity
    have hJ : (0 : ℝ) < BornSieve.J_TO_KJ := by norm_num [BornSieve.J_TO_KJ]
    have h13 : 1 / 30 ≤ 1 / εp :=
      one_div_le_one_div_of_le hεp0 hhi.le
    have key : -(BornSieve.N_A * (ion.charge : ℝ) ^ 2 * BornSieve.E_CHARGE ^ 2)
          / (8 * BornSieve.PI * BornSieve.EPSILON_0
            * (ion.bare_radius_nm * BornSieve.NM_TO_M))
          * (1.0 - 1.0 / εp) * BornSieve.J_TO_KJ
        - -(BornSieve.N_A * (ion.charge : ℝ) ^ 2 * BornSieve.E_CHARGE ^ 2)
          / (8 * BornSieve.PI * BornSieve.EPSILON_0
            * (ion.bare_radius_nm * BornSieve.NM_TO_M))
          * (1.0 - 1.0 / 30) * BornSieve.J_TO_KJ
        = BornSieve.N_A * (ion.charge : ℝ) ^ 2 * BornSieve.E_CHARGE ^ 2
          / (8 * BornSieve.PI * BornSieve.EPSILON_0
            * (ion.bare_radius_nm * BornSieve.NM_TO_M))
          * BornSieve.J_TO_KJ * (1.0 / εp - 1.0 / 30) := by
      ring
    rw [key]
    exact mul_nonneg (mul_nonneg (div_nonneg hnum hden.le) hJ.le)
      (by linarith)
  refine ⟨?_, ?_, hlo, hhi⟩
  · by_cases hd : d < 2.0 * ion.solvated_radius_nm * 0.8
    · simp only [BornSieve.dehydration_enthalpy, if_pos hd]
      exact ⟨fun _ => by linarith, fun _ => trivial⟩
    · obtain ⟨v, hv, -⟩ := hfin hd
      rw [hv]
      constructor
      · intro htop; exact absurd htop (EReal.coe_ne_top _)
      · intro hlt; exact absurd hlt (by push_neg at hd ⊢; linarith)
  · intro hge
    exact hfin (by push_neg; linarith)

/-- Witness for C10 at the bare-lithium species and pore diameter 1 nm. -/
theorem dehydration_enthalpy_spec_witness :
    (0 : ℝ) < BornSieve.SPECIES_Li.bare_radius_nm ∧
    ((BornSieve.dehydration_enthalpy 1 BornSieve.SPECIES_Li 30 = ⊤ ↔
      (1 : ℝ) < 0.8 * (2 * BornSieve.SPECIES_Li.solvated_radius_nm)) ∧
     (0.8 * (2 * BornSieve.SPECIES_Li.solvated_radius_nm) ≤ 1 →
       ∃ v : ℝ, BornSieve.dehydration_enthalpy 1 BornSieve.SPECIES_Li 30
           = (v : EReal) ∧ 0 ≤ v) ∧
     2 < BornSieve.confined_dielectric_constant 1 30 2.0 0.70 0.10 ∧
     BornSieve.confined_dielectric_constant 1 30 2.0 0.70 0.10 < 30) :=
  ⟨by norm_num [BornSieve.SPECIES_Li],
   dehydration_enthalpy_spec BornSieve.SPECIES_Li 1
     (by norm_num [BornSieve.SPECIES_Li])⟩

/-- C9: for every pressure at least 0, the clip-based Weibull curve of
`generate_plots.py` and the mask-based curve of
`generate_all_figures.py` agree, both equal
`100 * (1 - exp(-((max (p - 15) 0) / 25) ** 3.5))`, and both vanish at or
below the 15 MPa threshold. -/
theorem weibull_curves_equiv (p : ℝ) (hp : 0 ≤ p) :
    Figures.plots_failure_prob p = Figures.figures_failure_prob p ∧
    Figures.plots_failure_prob p
      = 100 * (1 - Real.exp (-(max (p - 15) 0 / 25) ^ (3.5 : ℝ))) ∧
    (p ≤ 15 →
      Figures.plots_failure_prob p = 0 ∧ Figures.figures_failure_prob p = 0) := by
  by_cases h : (15 : ℝ) < p
  · have hmax : max (p - 15) 0 = p - 15 := max_eq_left (by linarith)
    refine ⟨?_, ?_, fun hle => absurd h (not_lt.mpr hle)⟩
    · simp only [Figures.plots_failure_prob, Figures.figures_failure_prob]
      rw [if_pos (by norm_num; exact h)]
      norm_num [hmax]
    · simp only [Figures.plots_failure_prob]
      norm_num [hmax]
      ring
  · have hle : p ≤ 15 := not_lt.mp h
    have hmax : max (p - 15) 0 = 0 := max_eq_right (by linarith)
    have hpow : ((0 : ℝ) / 25) ^ (3.5 : ℝ) = 0 := by
      rw [zero_div, Real.zero_rpow (by norm_num)]
    have hplots : Figures.plots_failure_prob p = 0 := by
      simp only [Figures.plots_failure_prob]
      norm_num [hmax, hpow]
    have hfigs : Figures.figures_failure_prob p = 0 := by
      simp only [Figures.figures_failure_prob]
      rw [if_neg (by norm_num; linarith)]
      ring
    refine ⟨hplots.trans hfigs.symm, ?_, fun _ => ⟨hplots, hfigs⟩⟩
    rw [hplots, hmax, hpow]
    norm_num

/-- Witness for C9 at pressure 20 MPa. -/
theorem weibull_curves_equiv_witness :
    (0 : ℝ) ≤ 20 ∧
    (Figures.plots_failure_prob 20 = Figures.figures_failure_prob 20 ∧
     Figures.plots_failure_prob 20
       = 100 * (1 - Real.exp (-(max ((20 : ℝ) - 15) 0 / 25) ^ (3.5 : ℝ))) ∧
     ((20 : ℝ) ≤ 15 →
       Figures.plots_failure_prob 20 = 0 ∧ Figures.figures_failure_prob 20 = 0)) :=
  ⟨by norm_num, weibull_curves_equiv 20 (by norm_num)⟩

end
